import Mathlib

/-!
Verification of the reconciliation engine of the `zpa` Ansible collection
(modules `zpa_policy_timeout_rule`, `zpa_application_server`,
`zpa_pra_approval`, `zpa_service_edge_groups`,
`zpa_app_connector_assistant_schedule`,
`zpa_pra_credential_controller_facts`).

The Python modules are shallowly embedded: each module's `core` function
becomes a Lean function from a parameter record and a remote-client oracle
to a `RunResult` that records, in order, the remote calls issued, the diff
entries reported via `module.warn`, and the terminal event
(`exit_json` / `fail_json` / an uncaught exception / falling off the end of
`core` without producing any output).

Python dictionaries are embedded as association lists of `String × Value`
with Python's semantics: assignment replaces the value in place (keeping
position) or appends, `.get` returns the stored value (including `None`)
when the key is present and the default otherwise, `.update` applies the
other dict's entries in order, and `[...]` access raises `KeyError` when
the key is absent.
-/

/-- The weekly `working_hours` sub-object of a PRA approval
(`zpa_pra_approval.py`, argument spec). -/
structure WorkingHours where
  days : Option (List String)
  start_time : Option String
  start_time_cron : Option String
  end_time : Option String
  end_time_cron : Option String
  time_zone : Option String
deriving DecidableEq, Repr

/-- One operand of a policy-rule condition group
(`zpa_policy_timeout_rule.py`, argument spec: all sub-fields optional at
runtime; `map_conditions` only reads `object_type`, `lhs`, `rhs`). -/
structure Operand where
  id : Option String
  idp_id : Option String
  name : Option String
  lhs : Option String
  rhs : Option String
  object_type : Option String
deriving DecidableEq, Repr

/-- One condition group of a policy rule (`conditions` list element). -/
structure Cond where
  id : Option String
  negated : Option Bool
  operator : Option String
  operands : Option (List Operand)
deriving DecidableEq, Repr

/-- A Python runtime value as it occurs in these modules' dictionaries. -/
inductive Value where
  | none
  | str (s : String)
  | bool (b : Bool)
  | strs (xs : List String)
  | triples (xs : List (String × String × String))
  | conds (xs : List Cond)
  | wh (w : WorkingHours)
deriving DecidableEq, Repr

/-- A Python dict with string keys, as an ordered association list. -/
abbrev Dict := List (String × Value)

/-- Python `d[k] = v`: replace in place (keeping the key's position) when
the key exists, append otherwise. -/
def dictSet : Dict → String → Value → Dict
  | [], k, v => [(k, v)]
  | p :: rest, k, v => if p.1 = k then (k, v) :: rest else p :: dictSet rest k v

/-- Lookup of the stored value for a key, `Option.none` when absent. -/
def dictFind : Dict → String → Option Value
  | [], _ => Option.none
  | p :: rest, k => if p.1 = k then some p.2 else dictFind rest k

/-- Python `d.get(k, default)`: the stored value (which may itself be
`None`) when the key is present, the default otherwise. -/
def dictGetD (d : Dict) (k : String) (v : Value) : Value :=
  (dictFind d k).getD v

/-- Python `d.get(k)`: default `None`. -/
def dictGet (d : Dict) (k : String) : Value :=
  dictGetD d k Value.none

/-- Python `d.update(other)`: apply `other`'s entries in order. -/
def dictUpdate (d other : Dict) : Dict :=
  other.foldl (fun acc p => dictSet acc p.1 p.2) d

/-- Python `d.pop(k, None)`: remove the key when present. -/
def dictPop : Dict → String → Dict
  | [], _ => []
  | p :: rest, k => if p.1 = k then dictPop rest k else p :: dictPop rest k

/-- Modelled from the spec: `deleteNone` (from `module_utils`, not part of
the corpus) removes every field holding an absent/unset value from a
payload, per spec section 4.5: "fields holding an absent/unset value
removed entirely". -/
def deleteNone (d : Dict) : Dict :=
  d.filter (fun p => p.2 ≠ Value.none)

/-- Embeds an optional string parameter as a dict value. -/
def ov : Option String → Value
  | some s => Value.str s
  | Option.none => Value.none

/-- Embeds an optional boolean parameter as a dict value. -/
def ovb : Option Bool → Value
  | some b => Value.bool b
  | Option.none => Value.none

/-- Embeds an optional string-list parameter as a dict value. -/
def ovs : Option (List String) → Value
  | some xs => Value.strs xs
  | Option.none => Value.none

/-- Embeds an optional working-hours parameter as a dict value. -/
def ovw : Option WorkingHours → Value
  | some w => Value.wh w
  | Option.none => Value.none

/-- Embeds an optional condition-group-list parameter as a dict value. -/
def ovc : Option (List Cond) → Value
  | some xs => Value.conds xs
  | Option.none => Value.none

/-- Python truthiness for the embedded values. -/
def pyTruthy : Value → Bool
  | Value.none => false
  | Value.str s => s ≠ ""
  | Value.bool b => b
  | Value.strs xs => !xs.isEmpty
  | Value.triples xs => !xs.isEmpty
  | Value.conds xs => !xs.isEmpty
  | Value.wh _ => true

/-- The Python exceptions these modules can raise. -/
inductive PyErr where
  | keyError (k : String)
  | typeError
  | attributeError
deriving DecidableEq, Repr

/-- The payload of `exit_json`'s `data` argument. -/
inductive ExitData where
  | none
  | dict (d : Dict)
  | dicts (ds : List Dict)
deriving DecidableEq, Repr

/-- How one invocation of a module's `core` terminates. `raised` is an
uncaught exception, which `main`'s top-level handler turns into
`fail_json`; `fellThrough` means `core` returned without calling
`exit_json` or `fail_json` at all (no outcome is produced). -/
inductive Exit where
  | exited (changed : Bool) (data : ExitData)
  | exitedMsg (changed : Bool) (msg : String)
  | failedMsg (msg : String)
  | raised (e : PyErr)
  | fellThrough
deriving DecidableEq, Repr

/-- Discriminates a direct `fail_json` call inside `core` (which is how a
validation fault is reported). -/
def Exit.isFailedMsg : Exit → Bool
  | Exit.failedMsg _ => true
  | _ => false

/-- One call to the Remote Resource Client, with the argument that was
passed (keyword arguments recorded as a dict). -/
inductive RemoteCall where
  | get (key : Value)
  | list
  | create (payload : Dict)
  | update (payload : Dict)
  | delete (key : Value)
deriving DecidableEq, Repr

/-- Whether a remote call mutates the remote service. -/
def RemoteCall.isMutating : RemoteCall → Bool
  | RemoteCall.get _ => false
  | RemoteCall.list => false
  | RemoteCall.create _ => true
  | RemoteCall.update _ => true
  | RemoteCall.delete _ => true

/-- The observable behaviour of one module invocation: the remote calls in
order, the diff entries `(field, current, desired)` reported via
`module.warn`, and the terminal event. -/
structure RunResult where
  calls : List RemoteCall
  diffs : List (String × Value × Value)
  exit : Exit
deriving DecidableEq, Repr

/-- The resolver loop with `break` (`zpa_application_server.py` lines
126-129, `zpa_policy_timeout_rule.py` lines 266-269, `zpa_pra_approval.py`
lines 202-205): first listing entry whose key equals the wanted value. -/
def firstMatch (k : String) (v : Value) (xs : List Dict) : Option Dict :=
  xs.find? (fun d => dictGet d k = v)

/-- The resolver loop without `break` (`zpa_service_edge_groups.py` lines
218-220, `zpa_pra_credential_controller_facts.py` lines 103-106): each
match overwrites the previous one, so the last match wins. -/
def lastMatch (k : String) (v : Value) (xs : List Dict) : Option Dict :=
  xs.foldl (fun acc d => if dictGet d k = v then some d else acc) Option.none

/-- The merge step shared by the reconcilers (`existing.update(desired);
existing["id"] = id` with `id` read from `existing` beforehand). -/
def mergeKeepId (existing d : Dict) : Dict :=
  dictSet (dictUpdate existing d) "id" (dictGet existing "id")

/-- The field-difference loop shared by `zpa_application_server.py`
(lines 136-142) and `zpa_pra_approval.py` (lines 213-219): iterate the
desired canonical dict in order and report every field, outside the
exclusion list, whose current value differs. -/
def diffEntries (desired current : Dict) (exclude : List String) :
    List (String × Value × Value) :=
  desired.filterMap (fun kv =>
    if kv.1 ∈ exclude then Option.none
    else if dictGet current kv.1 = kv.2 then Option.none
    else some (kv.1, dictGet current kv.1, kv.2))

/-! ## Condition mapper (`zpa_policy_timeout_rule.py`, lines 219-236) -/

/-- The inner-loop body of `map_conditions` (lines 224-235): append the
operand's triple when `object_type`, `lhs` and `rhs` are all populated. -/
def mapCondStep (res : List (String × String × String)) (op : Operand) :
    List (String × String × String) :=
  match op.object_type, op.lhs, op.rhs with
  | some o, some l, some r => res ++ [(o, l, r)]
  | _, _, _ => res

/-- The outer-loop body of `map_conditions` (lines 221-235): skip a group
whose `operands` entry is absent, otherwise fold the inner loop. -/
def mapCondGroup (result : List (String × String × String)) (condition : Cond) :
    List (String × String × String) :=
  match condition.operands with
  | some ops => ops.foldl mapCondStep result
  | Option.none => result

/-- `map_conditions`: nested loops appending the `(object_type, lhs, rhs)`
triple of every operand whose three fields are all populated. -/
def map_conditions (conditions_obj : List Cond) :
    List (String × String × String) :=
  conditions_obj.foldl mapCondGroup []

/-- The triple of an operand when all three of `object_type`, `lhs`, `rhs`
are present. -/
def operandTriple (op : Operand) : Option (String × String × String) :=
  match op.object_type, op.lhs, op.rhs with
  | some o, some l, some r => some (o, l, r)
  | _, _, _ => Option.none

/-- Written after the spec's words (section 4.4): "Flattens every operand
across every group into one ordered sequence, filtering out operands where
`object_type`, `lhs`, or `rhs` is absent." -/
def mapConditionsSpec (gs : List Cond) : List (String × String × String) :=
  gs.flatMap (fun g =>
    match g.operands with
    | some ops => ops.filterMap operandTriple
    | Option.none => [])

/-- Applying `map_conditions` to a dict value, as the modules do after a
`.get` that may produce `None` (iterating `None` raises `TypeError`). -/
def pyMapConditions : Value → Except PyErr (List (String × String × String))
  | Value.conds xs => Except.ok (map_conditions xs)
  | Value.none => Except.error PyErr.typeError
  | _ => Except.error PyErr.typeError

/-- Python `str.upper()`, character-wise. -/
def pyUpperStr (s : String) : String :=
  String.mk (s.data.map Char.toUpper)

/-- Python `.upper()` on a dict value (`AttributeError` on non-strings,
including `None`). -/
def pyUpper : Value → Except PyErr String
  | Value.str s => Except.ok (pyUpperStr s)
  | _ => Except.error PyErr.attributeError

/-! ## Application server (`zpa_application_server.py`) -/

/-- The caller parameters of `zpa_application_server` (argument spec,
lines 198-206). -/
structure ServerParams where
  id : Option String
  name : Option String
  description : Option String
  address : Option String
  enabled : Option Bool
  app_server_group_ids : Option (List String)
  state : String
deriving DecidableEq, Repr

/-- The `server` dict built by the parameter-population loop
(lines 105-115), in `params` order. -/
def serverDict (p : ServerParams) : Dict :=
  [("id", ov p.id), ("name", ov p.name), ("description", ov p.description),
   ("address", ov p.address), ("enabled", ovb p.enabled),
   ("app_server_group_ids", ovs p.app_server_group_ids)]

/-- The remote client for application servers (spec section 6), as an
oracle supplying the responses of `get`/`list`/`create`/`update`/`delete`. -/
structure ServersClient where
  get_server : String → Option Dict
  list_servers : List Dict
  add_server : Dict → Dict
  update_server : Dict → Dict
  delete_server : Value → Nat

/-- Modelled from the spec: `normalize_app` (from `module_utils/utils.py`,
not part of the corpus), per spec section 4.2: drops the server-computed
`id` field and canonicalizes list-of-identifier fields order-independently
(no coordinate or enum field exists on an application server). -/
def canonValue : Value → Value
  | Value.strs xs => Value.strs (xs.foldr (fun x acc => acc.orderedInsert (· ≤ ·) x) [])
  | v => v

/-- Modelled from the spec: see `canonValue`. -/
def normalize_app (d : Dict) : Dict :=
  (dictPop d "id").map (fun p => (p.1, canonValue p.2))

/-- The resolution step of `zpa_application_server.core` (lines 119-129):
get-by-id when `id` is set, otherwise first name match over the full
listing, otherwise no resolution; returns the read calls it issued. -/
def resolveServer (p : ServerParams) (c : ServersClient) :
    List RemoteCall × Option Dict :=
  match p.id with
  | some i => ([RemoteCall.get (Value.str i)], c.get_server i)
  | Option.none =>
    match p.name with
    | some n => ([RemoteCall.list], firstMatch "name" (Value.str n) c.list_servers)
    | Option.none => ([], Option.none)

/-- `zpa_application_server.core` after resolution (lines 131-193). The
`differences_detected` flag is `true` exactly when the diff loop produced
at least one entry, embedded as the emptiness test on `diffEntries`. -/
def app_server_step (p : ServerParams) (c : ServersClient)
    (cs : List RemoteCall) (resolved : Option Dict) : RunResult :=
  let server := serverDict p
  let desired_app := normalize_app server
  match resolved with
  | Option.none =>
    let diffs := diffEntries desired_app [] ["id"]
    if p.state = "present" then
      let payload := deleteNone
        [("name", dictGet server "name"),
         ("description", dictGet server "description"),
         ("address", dictGet server "address"),
         ("enable", dictGet server "enable"),
         ("app_server_group_ids", dictGet server "app_server_group_ids")]
      ⟨cs ++ [RemoteCall.create payload], diffs,
        Exit.exited true (ExitData.dict (c.add_server payload))⟩
    else ⟨cs, diffs, Exit.exited false (ExitData.dict [])⟩
  | some existing0 =>
    let current_app := normalize_app existing0
    let diffs := diffEntries desired_app current_app ["id"]
    let existing := mergeKeepId existing0 server
    if p.state = "present" then
      if diffs = [] then ⟨cs, diffs, Exit.exited false (ExitData.dict existing)⟩
      else
        let payload := deleteNone
          [("server_id", dictGet existing "id"),
           ("name", dictGet existing "name"),
           ("description", dictGet existing "description"),
           ("address", dictGet existing "address"),
           ("enabled", dictGet existing "enabled"),
           ("app_server_group_ids", dictGet existing "app_server_group_ids")]
        ⟨cs ++ [RemoteCall.update payload], diffs,
          Exit.exited true (ExitData.dict (c.update_server payload))⟩
    else
      if p.state = "absent" ∧ dictGet existing "id" ≠ Value.none then
        let code := c.delete_server (dictGet existing "id")
        if code > 299 then
          ⟨cs ++ [RemoteCall.delete (dictGet existing "id")], diffs,
            Exit.exited false ExitData.none⟩
        else
          ⟨cs ++ [RemoteCall.delete (dictGet existing "id")], diffs,
            Exit.exited true (ExitData.dict existing)⟩
      else ⟨cs, diffs, Exit.exited false (ExitData.dict [])⟩

/-- `zpa_application_server.core` (lines 102-193). -/
def app_server_core (p : ServerParams) (c : ServersClient) : RunResult :=
  let r := resolveServer p c
  app_server_step p c r.1 r.2

/-! ## Policy timeout rule (`zpa_policy_timeout_rule.py`) -/

/-- The caller parameters of `zpa_policy_timeout_rule` (argument spec,
lines 318-368). -/
structure PolicyParams where
  id : Option String
  name : Option String
  description : Option String
  policy_type : Option String
  action : Option String
  reauth_idle_timeout : Option String
  reauth_timeout : Option String
  operator : Option String
  rule_order : Option String
  conditions : Option (List Cond)
  state : String
deriving DecidableEq, Repr

/-- The `policy` dict built by the parameter-population loop
(lines 244-258), in `params` order. -/
def policyDict (p : PolicyParams) : Dict :=
  [("id", ov p.id), ("name", ov p.name), ("description", ov p.description),
   ("policy_type", ov p.policy_type), ("action", ov p.action),
   ("reauth_idle_timeout", ov p.reauth_idle_timeout),
   ("reauth_timeout", ov p.reauth_timeout), ("operator", ov p.operator),
   ("rule_order", ov p.rule_order), ("conditions", ovc p.conditions)]

/-- The remote client for timeout policy rules. -/
structure PoliciesClient where
  get_rule : String → Option Dict
  list_rules : List Dict
  add_timeout_rule : Dict → Dict
  update_rule : Dict → Dict
  delete_rule : Value → Nat

/-- The resolution step of `zpa_policy_timeout_rule.core` (lines 259-269):
get-by-id, else first name match over the listing (`break` on match). -/
def resolvePolicy (p : PolicyParams) (c : PoliciesClient) :
    List RemoteCall × Option Dict :=
  match p.id with
  | some i => ([RemoteCall.get (Value.str i)], c.get_rule i)
  | Option.none =>
    match p.name with
    | some n => ([RemoteCall.list], firstMatch "name" (Value.str n) c.list_rules)
    | Option.none => ([], Option.none)

/-- `zpa_policy_timeout_rule.core` after resolution (lines 270-314).
Note: when a current rule is resolved and `state == "present"`, the update
branch runs unconditionally — the module computes no field diff — and the
create branch exits with `changed=False` (line 306). -/
def policy_step (p : PolicyParams) (c : PoliciesClient)
    (cs : List RemoteCall) (resolved : Option Dict) : RunResult :=
  let policy := policyDict p
  match resolved with
  | some existing0 =>
    let existing := mergeKeepId existing0 policy
    if p.state = "present" then
      match pyUpper (dictGetD existing "action" (Value.str "")) with
      | Except.error e => ⟨cs, [], Exit.raised e⟩
      | Except.ok act =>
        match pyMapConditions (dictGetD existing "conditions" (Value.conds [])) with
        | Except.error e => ⟨cs, [], Exit.raised e⟩
        | Except.ok ts =>
          let payload := deleteNone
            [("policy_type", Value.str "timeout"),
             ("rule_id", dictGet existing "id"),
             ("name", dictGet existing "name"),
             ("description", dictGet existing "description"),
             ("action", Value.str act),
             ("reauth_idle_timeout", dictGet existing "reauth_idle_timeout"),
             ("reauth_timeout", dictGet existing "reauth_timeout"),
             ("conditions", Value.triples ts)]
          ⟨cs ++ [RemoteCall.update payload], [],
            Exit.exited true (ExitData.dict (c.update_rule payload))⟩
    else
      if p.state = "absent" then
        let code := c.delete_rule (dictGet existing "id")
        if code > 299 then
          ⟨cs ++ [RemoteCall.delete (dictGet existing "id")], [],
            Exit.exited false ExitData.none⟩
        else
          ⟨cs ++ [RemoteCall.delete (dictGet existing "id")], [],
            Exit.exited true (ExitData.dict existing)⟩
      else ⟨cs, [], Exit.exited false (ExitData.dict [])⟩
  | Option.none =>
    if p.state = "present" then
      match pyMapConditions (dictGetD policy "conditions" (Value.conds [])) with
      | Except.error e => ⟨cs, [], Exit.raised e⟩
      | Except.ok ts =>
        let payload := deleteNone
          [("name", dictGet policy "name"),
           ("description", dictGet policy "description"),
           ("action", dictGet policy "action"),
           ("reauth_idle_timeout", dictGet policy "reauth_idle_timeout"),
           ("reauth_timeout", dictGet policy "reauth_timeout"),
           ("conditions", Value.triples ts)]
        ⟨cs ++ [RemoteCall.create payload], [],
          Exit.exited false (ExitData.dict (c.add_timeout_rule payload))⟩
    else ⟨cs, [], Exit.exited false (ExitData.dict [])⟩

/-- `zpa_policy_timeout_rule.core` (lines 239-314). -/
def policy_core (p : PolicyParams) (c : PoliciesClient) : RunResult :=
  let r := resolvePolicy p c
  policy_step p c r.1 r.2

/-! ## PRA approval (`zpa_pra_approval.py`) -/

/-- The caller parameters of `zpa_pra_approval` (argument spec,
lines 282-305). -/
structure ApprovalParams where
  id : Option String
  email_ids : Option (List String)
  start_time : Option String
  end_time : Option String
  application_ids : Option (List String)
  working_hours : Option WorkingHours
  state : String
deriving DecidableEq, Repr

/-- The `approval` dict built by the parameter-population loop
(lines 179-189), in `params` order. -/
def approvalDict (p : ApprovalParams) : Dict :=
  [("id", ov p.id), ("email_ids", ovs p.email_ids),
   ("start_time", ov p.start_time), ("end_time", ov p.end_time),
   ("application_ids", ovs p.application_ids),
   ("working_hours", ovw p.working_hours)]

/-- The remote client for PRA approvals. -/
structure PraClient where
  get_approval : String → Option Dict
  list_approval : List Dict
  add_approval : Dict → Dict
  update_approval : Dict → Dict
  delete_approval : Value → Nat

/-- `normalize_approval` (`zpa_pra_approval.py` lines 158-173): copy the
record and pop the computed fields `id`, `start_time`, `end_time`. -/
def normalize_approval (approval : Dict) : Dict :=
  dictPop (dictPop (dictPop approval "id") "start_time") "end_time"

/-- The resolution step of `zpa_pra_approval.core` (lines 193-205):
get-by-id, else first exact `email_ids` match over the listing
(`break` on match). -/
def resolvePra (p : ApprovalParams) (c : PraClient) :
    List RemoteCall × Option Dict :=
  match p.id with
  | some i => ([RemoteCall.get (Value.str i)], c.get_approval i)
  | Option.none =>
    match p.email_ids with
    | some es =>
      ([RemoteCall.list], firstMatch "email_ids" (Value.strs es) c.list_approval)
    | Option.none => ([], Option.none)

/-- The update payload of `zpa_pra_approval.core` (lines 231-240), built
from the merged record. -/
def praUpdatePayload (existing : Dict) : Dict :=
  deleteNone
    [("approval_id", dictGet existing "id"),
     ("email_ids", dictGet existing "email_ids"),
     ("start_time", dictGet existing "start_time"),
     ("end_time", dictGet existing "end_time"),
     ("application_ids", dictGet existing "application_ids"),
     ("working_hours", dictGet existing "working_hours")]

/-- `zpa_pra_approval.core` after resolution (lines 207-277). -/
def pra_step (p : ApprovalParams) (c : PraClient)
    (cs : List RemoteCall) (resolved : Option Dict) : RunResult :=
  let approval := approvalDict p
  let desired := normalize_approval approval
  match resolved with
  | Option.none =>
    let diffs := diffEntries desired [] ["id"]
    if p.state = "present" then
      let payload := deleteNone
        [("email_ids", dictGet approval "email_ids"),
         ("start_time", dictGet approval "start_time"),
         ("end_time", dictGet approval "end_time"),
         ("application_ids", dictGet approval "application_ids"),
         ("working_hours", dictGet approval "working_hours")]
      ⟨cs ++ [RemoteCall.create payload], diffs,
        Exit.exited true (ExitData.dict (c.add_approval payload))⟩
    else ⟨cs, diffs, Exit.exited false (ExitData.dict [])⟩
  | some existing0 =>
    let current := normalize_approval existing0
    let diffs := diffEntries desired current ["id"]
    let existing := mergeKeepId existing0 approval
    if p.state = "present" then
      if diffs = [] then ⟨cs, diffs, Exit.exited false (ExitData.dict existing)⟩
      else
        ⟨cs ++ [RemoteCall.update (praUpdatePayload existing)], diffs,
          Exit.exited true (ExitData.dict (c.update_approval (praUpdatePayload existing)))⟩
    else
      if p.state = "absent" ∧ dictGet existing "id" ≠ Value.none then
        let code := c.delete_approval (dictGet existing "id")
        if code > 299 then
          ⟨cs ++ [RemoteCall.delete (dictGet existing "id")], diffs,
            Exit.exited false ExitData.none⟩
        else
          ⟨cs ++ [RemoteCall.delete (dictGet existing "id")], diffs,
            Exit.exited true (ExitData.dict existing)⟩
      else ⟨cs, diffs, Exit.exited false (ExitData.dict [])⟩

/-- `zpa_pra_approval.core` (lines 176-277). -/
def pra_core (p : ApprovalParams) (c : PraClient) : RunResult :=
  let r := resolvePra p c
  pra_step p c r.1 r.2

/-! ## PRA credential facts (`zpa_pra_credential_controller_facts.py`) -/

/-- The caller parameters of the credential facts module. -/
structure FactsParams where
  id : Option String
  name : Option String
deriving DecidableEq, Repr

/-- The remote client for PRA credentials (read-only module). -/
structure CredsClient where
  get_credential : String → Option Dict
  list_credentials : List Dict

/-- `zpa_pra_credential_controller_facts.core` (lines 85-111). The name
scan (lines 103-106) rebinds `creds = [cred]` on every match without
breaking, so when several credentials share the name the last one in
listing order is kept. -/
def facts_core (p : FactsParams) (c : CredsClient) : RunResult :=
  match p.id with
  | some i =>
    match c.get_credential i with
    | Option.none =>
      ⟨[RemoteCall.get (Value.str i)], [],
        Exit.failedMsg ("Failed to retrieve PRA Credential ID: " ++ i)⟩
    | some d =>
      ⟨[RemoteCall.get (Value.str i)], [], Exit.exited false (ExitData.dicts [d])⟩
  | Option.none =>
    match p.name with
    | some n =>
      match lastMatch "name" (Value.str n) c.list_credentials with
      | Option.none =>
        ⟨[RemoteCall.list], [],
          Exit.failedMsg ("Failed to retrieve PRA Credential Name: " ++ n)⟩
      | some cr =>
        ⟨[RemoteCall.list], [], Exit.exited false (ExitData.dicts [cr])⟩
    | Option.none =>
      ⟨[RemoteCall.list], [], Exit.exited false (ExitData.dicts c.list_credentials)⟩

/-! ## Connector assistant schedule (`zpa_app_connector_assistant_schedule.py`) -/

/-- The caller parameters of the assistant schedule module (argument spec,
lines 169-183). -/
structure AsstParams where
  customer_id : Option String
  enabled : Option Bool
  delete_disabled : Option Bool
  frequency : Option String
  frequency_interval : Option String
  state : String
deriving DecidableEq, Repr

/-- The remote client for connector schedules. `get_connector_schedule`
and `add_connector_schedule` may raise (carrying the exception text);
`update_schedule` may raise or return a falsy result. -/
structure ConnectorsClient where
  get_connector_schedule : Except String (Option Dict)
  add_connector_schedule : Except String Dict
  update_schedule : Except String (Option Dict)

/-- The positional arguments of `add_connector_schedule(frequency,
frequency_interval, delete_disabled)` (line 118), recorded as a dict. -/
def asstCreatePayload (p : AsstParams) : Dict :=
  [("frequency", ov p.frequency),
   ("frequency_interval", ov p.frequency_interval),
   ("delete_disabled", ovb p.delete_disabled)]

/-- The keyword arguments of `update_schedule` (lines 149-151), recorded
as a dict. -/
def asstUpdatePayload (p : AsstParams) (scheduler_id : Value) : Dict :=
  [("scheduler_id", scheduler_id),
   ("customer_id", ov p.customer_id),
   ("enabled", ovb p.enabled),
   ("delete_disabled", ovb p.delete_disabled),
   ("frequency", ov p.frequency),
   ("frequency_interval", ov p.frequency_interval)]

/-- Substring membership over character lists, for Python's
`"resource.already.exist" in str(e)` (line 121). -/
def charsContain (needle : List Char) : List Char → Bool
  | [] => needle.isEmpty
  | c :: rest => needle.isPrefixOf (c :: rest) || charsContain needle rest

/-- Python's `needle in hay` on strings. -/
def strContains (hay needle : String) : Bool :=
  charsContain needle.data hay.data

/-- `zpa_app_connector_assistant_schedule.core` (lines 97-161). On a
create conflict (`"resource.already.exist" in str(e)`) the code assigns a
placeholder `scheduler_id` and then returns (line 127) without calling
`exit_json` or `fail_json`: the invocation produces no outcome at all. -/
def asst_core (p : AsstParams) (c : ConnectorsClient) : RunResult :=
  match c.get_connector_schedule with
  | Except.error e =>
    ⟨[RemoteCall.get (ov p.customer_id)], [],
      Exit.failedMsg ("Failed to get schedule: " ++ e)⟩
  | Except.ok sched =>
    let getCall := RemoteCall.get (ov p.customer_id)
    let truthy := match sched with
      | some d => !d.isEmpty
      | Option.none => false
    if truthy = false then
      -- `if not schedule:` — create a new schedule
      if p.enabled = some true then
        match c.add_connector_schedule with
        | Except.ok _ =>
          ⟨[getCall, RemoteCall.create (asstCreatePayload p)], [],
            Exit.exitedMsg true "Schedule added successfully."⟩
        | Except.error e =>
          if strContains e "resource.already.exist" then
            -- placeholder id assigned, then `return`: no outcome
            ⟨[getCall, RemoteCall.create (asstCreatePayload p)], [],
              Exit.fellThrough⟩
          else
            ⟨[getCall, RemoteCall.create (asstCreatePayload p)], [],
              Exit.failedMsg ("Failed to add schedule: " ++ e)⟩
      else
        ⟨[getCall], [], Exit.exitedMsg false "Schedule is not enabled."⟩
    else
      let s := sched.getD []
      let scheduler_id := dictGet s "id"
      let pairs : List (String × Value × Value) :=
        [("enabled", dictGet s "enabled", ovb p.enabled),
         ("delete_disabled", dictGet s "delete_disabled", ovb p.delete_disabled),
         ("frequency", dictGet s "frequency", ov p.frequency),
         ("frequency_interval", dictGet s "frequency_interval", ov p.frequency_interval)]
      let diffs := pairs.filter (fun t => t.2.1 ≠ t.2.2)
      if diffs ≠ [] ∧ pyTruthy scheduler_id then
        match c.update_schedule with
        | Except.ok (some _) =>
          ⟨[getCall, RemoteCall.update (asstUpdatePayload p scheduler_id)], diffs,
            Exit.exitedMsg true "Schedule updated successfully."⟩
        | Except.ok Option.none =>
          ⟨[getCall, RemoteCall.update (asstUpdatePayload p scheduler_id)], diffs,
            Exit.failedMsg "Failed to update schedule: Update not successful"⟩
        | Except.error e =>
          ⟨[getCall, RemoteCall.update (asstUpdatePayload p scheduler_id)], diffs,
            Exit.failedMsg ("Failed to update schedule: " ++ e)⟩
      else
        if pyTruthy scheduler_id = false then
          ⟨[getCall], diffs,
            Exit.failedMsg "Schedule ID not found for updating the schedule."⟩
        else ⟨[getCall], diffs, Exit.exitedMsg false "No update required."⟩

/-! ## Service edge groups (`zpa_service_edge_groups.py`) -/

/-- Numeric value of a digit list, `Option.none` on a non-digit. -/
def digitsVal (cs : List Char) : Option Nat :=
  cs.foldl
    (fun acc c =>
      match acc with
      | some n => if c.isDigit then some (n * 10 + (c.toNat - 48)) else Option.none
      | Option.none => Option.none)
    (some 0)

/-- The fraction digits scaled to six decimal places, rounded half up at
the seventh digit. -/
def fracScaled (cs : List Char) : Option Nat :=
  if cs.all Char.isDigit then
    let ds := cs.map (fun c => c.toNat - 48)
    let first := ds.take 6 ++ List.replicate (6 - ds.length) 0
    let n := first.foldl (fun acc d => acc * 10 + d) 0
    match ds.drop 6 with
    | d :: _ => some (if d ≥ 5 then n + 1 else n)
    | [] => some n
  else Option.none

/-- Modelled from the spec: decimal parsing for coordinate-like string
fields (spec section 4.2: "parsed as decimal; two values are equivalent if
they round to the same value at a fixed precision"). Returns the value
scaled by `10^6`, rounded half up. -/
def parseScaled (s : String) : Option Int :=
  match s.data with
  | [] => Option.none
  | c :: rest =>
    let neg := c = '-'
    let body := if c = '-' ∨ c = '+' then rest else c :: rest
    let mk : Nat → Int := fun n => if neg then -(n : Int) else (n : Int)
    let w := body.takeWhile (fun ch => ch ≠ '.')
    match body.dropWhile (fun ch => ch ≠ '.') with
    | [] =>
      if w ≠ [] ∧ w.all Char.isDigit then
        (digitsVal w).map (fun n => mk (n * 1000000))
      else Option.none
    | _ :: f =>
      if (w ≠ [] ∨ f ≠ []) ∧ w.all Char.isDigit ∧ f.all (fun ch => ch ≠ '.') then
        match digitsVal w, fracScaled f with
        | some n, some fr => some (mk (n * 1000000 + fr))
        | _, _ => Option.none
      else Option.none

/-- Modelled from the spec: `validate_latitude` (from
`module_utils/utils.py`, not part of the corpus) — the core-level domain
check that a latitude lies within its valid numeric range `[-90, 90]`
(spec section 7, ValidationFault). Returns the list of errors. -/
def validate_latitude (s : String) : List String :=
  match parseScaled s with
  | Option.none => ["latitude value should be a valid float number"]
  | some v =>
    if v < -(90 * 1000000 : Int) ∨ v > (90 * 1000000 : Int) then
      ["latitude must be between -90 and 90"]
    else []

/-- Modelled from the spec: `validate_longitude`, the same domain check
for longitudes with range `[-180, 180]`. -/
def validate_longitude (s : String) : List String :=
  match parseScaled s with
  | Option.none => ["longitude value should be a valid float number"]
  | some v =>
    if v < -(180 * 1000000 : Int) ∨ v > (180 * 1000000 : Int) then
      ["longitude must be between -180 and 180"]
    else []

/-- Modelled from the spec: `diff_suppress_func_coordinate` (from
`module_utils/utils.py`, not part of the corpus) — two coordinate values
are equivalent when they parse as decimals that round to the same value at
the fixed precision (spec section 4.2). -/
def diff_suppress_func_coordinate (a b : Value) : Bool :=
  match a, b with
  | Value.str x, Value.str y =>
    match parseScaled x, parseScaled y with
    | some u, some v => u = v
    | _, _ => false
  | _, _ => false

/-- The caller parameters of `zpa_service_edge_groups` (argument spec,
lines 324-357; `dns_query_type` appears in the `params` list of `core`
but not in the argument spec, so it is always absent). -/
structure SegParams where
  id : Option String
  name : Option String
  description : Option String
  enabled : Option Bool
  city_country : Option String
  country_code : Option String
  latitude : Option String
  longitude : Option String
  location : Option String
  is_public : Option Bool
  upgrade_day : Option String
  upgrade_time_in_secs : Option String
  dns_query_type : Option String
  override_version_profile : Option Bool
  version_profile_id : Option String
  use_in_dr_mode : Option Bool
  trusted_networks_ids : Option (List String)
  state : String
deriving DecidableEq, Repr

/-- The remote client for service edge groups. -/
structure SegClient where
  get_service_edge_group : String → Option Dict
  list_service_edge_groups : List Dict
  add_service_edge_group : Dict → Dict
  update_service_edge_group : Dict → Dict
  delete_service_edge_group : Value → Nat

/-- The parameter-population loop of `zpa_service_edge_groups.core`
(lines 207-208), writing the 17 `params` keys in order into `group`. -/
def segFill (g : Dict) (p : SegParams) : Dict :=
  dictUpdate g
    [("id", ov p.id), ("name", ov p.name), ("description", ov p.description),
     ("enabled", ovb p.enabled), ("city_country", ov p.city_country),
     ("country_code", ov p.country_code), ("latitude", ov p.latitude),
     ("longitude", ov p.longitude), ("location", ov p.location),
     ("is_public", ovb p.is_public), ("upgrade_day", ov p.upgrade_day),
     ("upgrade_time_in_secs", ov p.upgrade_time_in_secs),
     ("dns_query_type", ov p.dns_query_type),
     ("override_version_profile", ovb p.override_version_profile),
     ("version_profile_id", ov p.version_profile_id),
     ("use_in_dr_mode", ovb p.use_in_dr_mode),
     ("trusted_networks_ids", ovs p.trusted_networks_ids)]

/-- The coordinate reset steps of the update branch (lines 236-259): read
the (already merged) coordinate, and when the desired one is present and
equivalent under `diff_suppress_func_coordinate`, or absent, write the
read value back. -/
def segCoordAdjust (existing : Dict) (key : String) (desired : Option String) :
    Dict :=
  let existingVal := dictGet existing key
  match desired with
  | some nv =>
    if diff_suppress_func_coordinate existingVal (Value.str nv) then
      dictSet existing key existingVal
    else existing
  | Option.none => dictSet existing key existingVal

/-- `zpa_service_edge_groups.core` from the parameter-population loop
onward (lines 207-319). Reachable only if the `is_public` access on the
empty `group` dict (line 204) had not raised. -/
def seg_core_rest (p : SegParams) (c : SegClient) (g0 : Dict) : RunResult :=
  let group := segFill g0 p
  let r : List RemoteCall × Option Dict :=
    match p.id with
    | some i => ([RemoteCall.get (Value.str i)], c.get_service_edge_group i)
    | Option.none =>
      match p.name with
      | some n =>
        ([RemoteCall.list],
          lastMatch "name" (Value.str n) c.list_service_edge_groups)
      | Option.none => ([], Option.none)
  let cs := r.1
  let merged : Option Dict := r.2.map (fun e => mergeKeepId e group)
  if p.state = "present" then
    let latErrors := match p.latitude, p.longitude with
      | some la, some lo => validate_latitude la ++ validate_longitude lo
      | _, _ => []
    if latErrors ≠ [] then
      ⟨cs, [], Exit.failedMsg (String.intercalate ", " latErrors)⟩
    else
      match merged with
      | some existing =>
        let e1 := segCoordAdjust existing "latitude" p.latitude
        let e2 := segCoordAdjust e1 "longitude" p.longitude
        let payload := deleteNone
          [("group_id", dictGet e2 "id"), ("name", dictGet e2 "name"),
           ("description", dictGet e2 "description"),
           ("enabled", dictGet e2 "enabled"),
           ("city_country", dictGet e2 "city_country"),
           ("country_code", dictGet e2 "country_code"),
           ("latitude", dictGet e2 "latitude"),
           ("longitude", dictGet e2 "longitude"),
           ("is_public", dictGet e2 "is_public"),
           ("location", dictGet e2 "location"),
           ("upgrade_day", dictGet e2 "upgrade_day"),
           ("upgrade_time_in_secs", dictGet e2 "upgrade_time_in_secs"),
           ("override_version_profile", dictGet e2 "override_version_profile"),
           ("version_profile_id", dictGet e2 "version_profile_id"),
           ("use_in_dr_mode", dictGet e2 "use_in_dr_mode"),
           ("trusted_networks_ids", dictGet e2 "trusted_networks_ids")]
        ⟨cs ++ [RemoteCall.update payload], [],
          Exit.exited true (ExitData.dict (c.update_service_edge_group payload))⟩
      | Option.none =>
        let payload := deleteNone
          [("name", dictGet group "name"),
           ("description", dictGet group "description"),
           ("address", dictGet group "address"),
           ("enable", dictGet group "enable"),
           ("latitude", dictGet group "latitude"),
           ("location", dictGet group "location"),
           ("longitude", dictGet group "longitude"),
           ("city_country", dictGet group "city_country"),
           ("country_code", dictGet group "country_code"),
           ("is_public", dictGet group "is_public"),
           ("upgrade_day", dictGet group "upgrade_day"),
           ("upgrade_time_in_secs", dictGet group "upgrade_time_in_secs"),
           ("override_version_profile", dictGet group "override_version_profile"),
           ("version_profile_id", dictGet group "version_profile_id"),
           ("use_in_dr_mode", dictGet group "use_in_dr_mode"),
           ("trusted_networks_ids", dictGet group "trusted_networks_ids")]
        ⟨cs ++ [RemoteCall.create payload], [],
          Exit.exited true (ExitData.dict (c.add_service_edge_group payload))⟩
  else
    if p.state = "absent" then
      match merged with
      | some existing =>
        if dictGet existing "id" ≠ Value.none then
          let code := c.delete_service_edge_group (dictGet existing "id")
          if code > 299 then
            ⟨cs ++ [RemoteCall.delete (dictGet existing "id")], [],
              Exit.exited false ExitData.none⟩
          else
            ⟨cs ++ [RemoteCall.delete (dictGet existing "id")], [],
              Exit.exited true (ExitData.dict existing)⟩
        else ⟨cs, [], Exit.exited false (ExitData.dict [])⟩
      | Option.none => ⟨cs, [], Exit.exited false (ExitData.dict [])⟩
    else ⟨cs, [], Exit.exited false (ExitData.dict [])⟩

/-- `zpa_service_edge_groups.core` (lines 175-319). The `group` dict is
created empty (line 182) and line 204 reads `group["is_public"]` before
the parameter-population loop (lines 207-208) has run, so the bracket
access raises `KeyError` on every invocation, before any remote call. -/
def seg_core (p : SegParams) (c : SegClient) : RunResult :=
  let group : Dict := []
  match dictFind group "is_public" with
  | Option.none => ⟨[], [], Exit.raised (PyErr.keyError "is_public")⟩
  | some v =>
    let g1 :=
      if v ≠ Value.none then
        dictSet group "is_public"
          (if pyTruthy v then Value.str "TRUE" else Value.str "FALSE")
      else group
    seg_core_rest p c g1

/-! ## Dictionary lemmas -/

theorem dictFind_set_self (d : Dict) (k : String) (v : Value) :
    dictFind (dictSet d k v) k = some v := by
  induction d with
  | nil => simp [dictSet, dictFind]
  | cons q rest ih =>
    by_cases h : q.1 = k
    · simp [dictSet, h, dictFind]
    · simp [dictSet, h, dictFind, ih]

theorem dictFind_set_ne (d : Dict) (k k' : String) (v : Value) (h : k' ≠ k) :
    dictFind (dictSet d k v) k' = dictFind d k' := by
  induction d with
  | nil => simp [dictSet, dictFind, Ne.symm h]
  | cons q rest ih =>
    by_cases hq : q.1 = k
    · subst hq
      simp [dictSet, dictFind, Ne.symm h]
    · simp [dictSet, hq, dictFind, ih]

theorem dictFind_pop_ne (d : Dict) (k k' : String) (h : k' ≠ k) :
    dictFind (dictPop d k) k' = dictFind d k' := by
  induction d with
  | nil => simp [dictPop]
  | cons q rest ih =>
    by_cases hq : q.1 = k
    · subst hq
      simp [dictPop, dictFind, Ne.symm h, ih]
    · simp [dictPop, hq, dictFind, ih]

theorem dictFind_mapVal (f : Value → Value) (d : Dict) (k : String) :
    dictFind (d.map (fun q => (q.1, f q.2))) k = (dictFind d k).map f := by
  induction d with
  | nil => simp [dictFind]
  | cons q rest ih =>
    by_cases hq : q.1 = k
    · simp [dictFind, hq]
    · simp [dictFind, hq, ih]

theorem dictFind_normalize_app (d : Dict) (k : String) (h : k ≠ "id") :
    dictFind (normalize_app d) k = (dictFind d k).map canonValue := by
  unfold normalize_app
  rw [dictFind_mapVal, dictFind_pop_ne d "id" k h]

theorem dictFind_merge_id (e d : Dict) :
    dictFind (mergeKeepId e d) "id" = some (dictGet e "id") := by
  unfold mergeKeepId
  exact dictFind_set_self _ _ _

theorem dictGet_merge_id (e d : Dict) :
    dictGet (mergeKeepId e d) "id" = dictGet e "id" := by
  unfold dictGet dictGetD
  rw [dictFind_merge_id]
  rfl

/-! ## C10 — condition flattening -/

theorem mapCondStep_foldl (ops : List Operand)
    (acc : List (String × String × String)) :
    ops.foldl mapCondStep acc = acc ++ ops.filterMap operandTriple := by
  induction ops generalizing acc with
  | nil => simp
  | cons op rest ih =>
    simp only [List.foldl_cons, List.filterMap_cons]
    cases ho : op.object_type <;> cases hl : op.lhs <;> cases hr : op.rhs <;>
      simp [mapCondStep, operandTriple, ho, hl, hr, ih]

theorem mapCondGroup_foldl (gs : List Cond)
    (acc : List (String × String × String)) :
    gs.foldl mapCondGroup acc = acc ++ mapConditionsSpec gs := by
  induction gs generalizing acc with
  | nil => simp [mapConditionsSpec]
  | cons g rest ih =>
    simp only [List.foldl_cons, mapConditionsSpec, List.flatMap_cons]
    cases hg : g.operands <;>
      simp [mapCondGroup, hg, mapCondStep_foldl, ih, mapConditionsSpec]

/-- C10: for every list of condition groups, `map_conditions` returns the
flattened sequence of `(object_type, lhs, rhs)` triples taken from every
operand of every group in order, keeping exactly those operands whose
three fields are all present and discarding the group, operator and
negation structure. -/
theorem mapConditions_flattens (gs : List Cond) :
    map_conditions gs = mapConditionsSpec gs := by
  simpa using mapCondGroup_foldl gs []

/-! ## C2 — service edge group KeyError -/

/-- C2: every invocation of the service-edge-group reconciliation reads
`group["is_public"]` from the freshly created empty dict before the
parameter-population loop runs, so it raises `KeyError` before any remote
call; `main`'s top-level exception handler is the only way the invocation
terminates, so no reconciliation ever completes. -/
theorem seg_core_keyError (p : SegParams) (c : SegClient) :
    seg_core p c = ⟨[], [], Exit.raised (PyErr.keyError "is_public")⟩ := rfl

/-! ## C3 — create path reports `changed=False` in the policy module -/

/-- A create-path input for the policy timeout rule: `state: present`,
no `id`, a name matching nothing in the (empty) listing. -/
def policyCreateParams : PolicyParams :=
  { id := Option.none, name := some "rule-A", description := Option.none,
    policy_type := Option.none, action := some "RE_AUTH",
    reauth_idle_timeout := some "600", reauth_timeout := some "172800",
    operator := Option.none, rule_order := Option.none,
    conditions := some [], state := "present" }

/-- A client with an empty listing whose create call succeeds, returning
the payload with a server-assigned id. -/
def policyCreateClient : PoliciesClient :=
  { get_rule := fun _ => Option.none, list_rules := [],
    add_timeout_rule := fun d => dictSet d "id" (Value.str "100"),
    update_rule := fun d => d, delete_rule := fun _ => 200 }

/-- The creation payload `core` builds for `policyCreateParams`. -/
def policyCreatePayload : Dict :=
  [("name", Value.str "rule-A"), ("action", Value.str "RE_AUTH"),
   ("reauth_idle_timeout", Value.str "600"),
   ("reauth_timeout", Value.str "172800"),
   ("conditions", Value.triples [])]

/-- C3: on the create path that succeeds, `zpa_policy_timeout_rule.core`
exits with `changed=False` (line 306) even though it issued the create
call and carries the created record — contradicting both the spec and the
`changed=True` convention of every sibling module's create path. -/
theorem policy_create_reports_unchanged :
    policy_core policyCreateParams policyCreateClient =
      ⟨[RemoteCall.list, RemoteCall.create policyCreatePayload], [],
        Exit.exited false
          (ExitData.dict (policyCreatePayload ++ [("id", Value.str "100")]))⟩ := by
  rfl

/-! ## C1 — no-op purity -/

/-- A desired policy-rule spec whose remote counterpart already matches it
on every compared field. -/
def policyNoopParams : PolicyParams :=
  { id := Option.none, name := some "rule-A", description := some "d",
    policy_type := Option.none, action := some "RE_AUTH",
    reauth_idle_timeout := some "600", reauth_timeout := some "172800",
    operator := Option.none, rule_order := Option.none,
    conditions := some [], state := "present" }

/-- The remote rule: exactly the desired fields, plus the server id. -/
def policyNoopRule : Dict :=
  dictSet (policyDict policyNoopParams) "id" (Value.str "7")

/-- A client whose listing holds exactly the matching rule. -/
def policyNoopClient : PoliciesClient :=
  { get_rule := fun _ => Option.none, list_rules := [policyNoopRule],
    add_timeout_rule := fun d => d, update_rule := fun d => d,
    delete_rule := fun _ => 200 }

/-- The update payload `core` sends even though nothing differs. -/
def policyNoopPayload : Dict :=
  [("policy_type", Value.str "timeout"), ("rule_id", Value.str "7"),
   ("name", Value.str "rule-A"), ("description", Value.str "d"),
   ("action", Value.str "RE_AUTH"),
   ("reauth_idle_timeout", Value.str "600"),
   ("reauth_timeout", Value.str "172800"),
   ("conditions", Value.triples [])]

/-- C1 counterexample: a `present` reconciliation of the policy timeout
rule where the current remote resource is resolved and its normalized
fields all equal the normalized desired fields (first conjunct: the diff
under the engine's own normalizer and exclusion list is empty), yet the
engine issues an update call and returns `changed=true` — the module has
no differ and updates unconditionally (lines 274-292). -/
theorem policy_noop_still_updates :
    diffEntries (normalize_app (policyDict policyNoopParams))
        (normalize_app policyNoopRule) ["id"] = []
    ∧ policy_core policyNoopParams policyNoopClient =
        ⟨[RemoteCall.list, RemoteCall.update policyNoopPayload], [],
          Exit.exited true (ExitData.dict policyNoopPayload)⟩ := by
  constructor
  · rfl
  · rfl

/-- The resolution step of the application-server module issues only read
calls. -/
theorem resolveServer_not_mutating (p : ServerParams) (c : ServersClient) :
    (resolveServer p c).1.all (fun cl => !cl.isMutating) = true := by
  unfold resolveServer
  cases p.id with
  | some i => rfl
  | none =>
    cases p.name with
    | some n => rfl
    | none => rfl

/-- Helper: the no-change branch of `zpa_application_server.core` — a
resolved current resource and an empty diff with `state == "present"` hit
the `"No Changes Needed"` exit. -/
theorem app_server_noop_helper (p : ServerParams) (c : ServersClient)
    (cs : List RemoteCall) (E : Dict)
    (hres : resolveServer p c = (cs, some E))
    (hstate : p.state = "present")
    (hdiff : diffEntries (normalize_app (serverDict p)) (normalize_app E) ["id"]
      = []) :
    app_server_core p c =
      ⟨cs, [], Exit.exited false (ExitData.dict (mergeKeepId E (serverDict p)))⟩ := by
  show app_server_step p c (resolveServer p c).1 (resolveServer p c).2 = _
  rw [hres]
  simp [app_server_step, hstate, hdiff]

/-- C1 (amended): for the application-server module — which, unlike the
policy timeout rule, computes a diff — a `present` reconciliation whose
resolved current resource normalizes equal to the desired spec on every
compared field issues no create, update or delete call and exits with
`changed=false` and the merged record. -/
theorem appserver_noop_purity (p : ServerParams) (c : ServersClient)
    (cs : List RemoteCall) (E : Dict)
    (hres : resolveServer p c = (cs, some E))
    (hstate : p.state = "present")
    (hdiff : diffEntries (normalize_app (serverDict p)) (normalize_app E) ["id"]
      = []) :
    app_server_core p c =
      ⟨cs, [], Exit.exited false (ExitData.dict (mergeKeepId E (serverDict p)))⟩
    ∧ cs.all (fun cl => !cl.isMutating) = true := by
  constructor
  · exact app_server_noop_helper p c cs E hres hstate hdiff
  · have h := resolveServer_not_mutating p c
    rw [hres] at h
    exact h

/-- A concrete no-op input for the application server. -/
def serverNoopParams : ServerParams :=
  { id := Option.none, name := some "srv-A", description := some "d",
    address := some "10.0.0.1", enabled := some true,
    app_server_group_ids := some ["g1"], state := "present" }

/-- The matching remote server: desired fields plus the server id. -/
def serverNoopExisting : Dict :=
  dictSet (serverDict serverNoopParams) "id" (Value.str "9")

/-- A client whose listing holds exactly the matching server. -/
def serverNoopClient : ServersClient :=
  { get_server := fun _ => Option.none, list_servers := [serverNoopExisting],
    add_server := fun d => d, update_server := fun d => d,
    delete_server := fun _ => 200 }

/-- Witness for C1: the no-op purity theorem applied at a concrete input. -/
theorem appserver_noop_purity_w :
    app_server_core serverNoopParams serverNoopClient =
      ⟨[RemoteCall.list], [],
        Exit.exited false
          (ExitData.dict (mergeKeepId serverNoopExisting
            (serverDict serverNoopParams)))⟩
    ∧ [RemoteCall.list].all (fun cl => !cl.isMutating) = true :=
  appserver_noop_purity serverNoopParams serverNoopClient [RemoteCall.list]
    serverNoopExisting (by decide) rfl (by decide)

/-! ## C4 — idempotence -/

/-- Helper: reading a non-`id` key of the normalized merge of a current
record and a desired dict gives the canonicalized stored value of the
plain merge. -/
theorem dictGet_normMerge (E d : Dict) (k : String) (v : Value)
    (hk : k ≠ "id") (hfind : dictFind (dictUpdate E d) k = some v) :
    dictGet (normalize_app (mergeKeepId E d)) k = canonValue v := by
  unfold dictGet dictGetD mergeKeepId
  rw [dictFind_normalize_app _ _ hk, dictFind_set_ne _ _ _ _ hk, hfind]
  rfl

/-- Helper: merging a server dict over any current record leaves no diff
against the desired server dict — every compared key reads back the
desired value. -/
theorem merge_diff_empty (E : Dict) (p : ServerParams) :
    diffEntries (normalize_app (serverDict p))
      (normalize_app (mergeKeepId E (serverDict p))) ["id"] = [] := by
  have h1 : dictGet (normalize_app (mergeKeepId E (serverDict p))) "name"
      = canonValue (ov p.name) :=
    dictGet_normMerge E (serverDict p) "name" (ov p.name) (by decide)
      (by simp [dictUpdate, serverDict, dictFind_set_ne, dictFind_set_self])
  have h2 : dictGet (normalize_app (mergeKeepId E (serverDict p))) "description"
      = canonValue (ov p.description) :=
    dictGet_normMerge E (serverDict p) "description" (ov p.description) (by decide)
      (by simp [dictUpdate, serverDict, dictFind_set_ne, dictFind_set_self])
  have h3 : dictGet (normalize_app (mergeKeepId E (serverDict p))) "address"
      = canonValue (ov p.address) :=
    dictGet_normMerge E (serverDict p) "address" (ov p.address) (by decide)
      (by simp [dictUpdate, serverDict, dictFind_set_ne, dictFind_set_self])
  have h4 : dictGet (normalize_app (mergeKeepId E (serverDict p))) "enabled"
      = canonValue (ovb p.enabled) :=
    dictGet_normMerge E (serverDict p) "enabled" (ovb p.enabled) (by decide)
      (by simp [dictUpdate, serverDict, dictFind_set_ne, dictFind_set_self])
  have h5 : dictGet (normalize_app (mergeKeepId E (serverDict p)))
      "app_server_group_ids" = canonValue (ovs p.app_server_group_ids) :=
    dictGet_normMerge E (serverDict p) "app_server_group_ids"
      (ovs p.app_server_group_ids) (by decide)
      (by simp [dictUpdate, serverDict, dictFind_set_ne, dictFind_set_self])
  have hd : normalize_app (serverDict p) =
      [("name", canonValue (ov p.name)),
       ("description", canonValue (ov p.description)),
       ("address", canonValue (ov p.address)),
       ("enabled", canonValue (ovb p.enabled)),
       ("app_server_group_ids", canonValue (ovs p.app_server_group_ids))] := by
    simp [normalize_app, serverDict, dictPop]
  rw [hd]
  simp [diffEntries, h1, h2, h3, h4, h5]

/-- C4 (amended): for the application-server module, reconciling the same
desired spec against a remote resource that reflects the first call's
update (the current record merged with the desired spec) yields
`changed=false` and no mutating call on the second invocation; the policy
timeout rule module is excluded — it updates unconditionally whenever a
current resource is resolved, so its second call reports `changed=true`. -/
theorem appserver_idempotence (p : ServerParams) (c : ServersClient)
    (cs : List RemoteCall) (E : Dict)
    (hres : resolveServer p c = (cs, some (mergeKeepId E (serverDict p))))
    (hstate : p.state = "present") :
    (app_server_core p c).exit =
      Exit.exited false
        (ExitData.dict
          (mergeKeepId (mergeKeepId E (serverDict p)) (serverDict p)))
    ∧ (app_server_core p c).calls.all (fun cl => !cl.isMutating) = true := by
  have h := app_server_noop_helper p c cs (mergeKeepId E (serverDict p)) hres
    hstate (merge_diff_empty E p)
  rw [h]
  refine ⟨rfl, ?_⟩
  have hm := resolveServer_not_mutating p c
  rw [hres] at hm
  exact hm

/-- The desired spec for the idempotence counterexample on the policy
timeout rule: run one updates `description` from `"old"` to `"new"`. -/
def policyIdemParams : PolicyParams :=
  { id := Option.none, name := some "rule-A", description := some "new",
    policy_type := Option.none, action := some "RE_AUTH",
    reauth_idle_timeout := some "600", reauth_timeout := some "172800",
    operator := Option.none, rule_order := Option.none,
    conditions := some [], state := "present" }

/-- The remote rule before the first call (`description` still `"old"`). -/
def policyIdemRule : Dict :=
  dictSet (dictSet (policyDict policyIdemParams) "id" (Value.str "7"))
    "description" (Value.str "old")

/-- The client for the first reconciliation. -/
def policyIdemClient1 : PoliciesClient :=
  { get_rule := fun _ => Option.none, list_rules := [policyIdemRule],
    add_timeout_rule := fun d => d, update_rule := fun d => d,
    delete_rule := fun _ => 200 }

/-- The client for the second reconciliation: the listing now holds the
resource as updated by the first call (current merged with desired). -/
def policyIdemClient2 : PoliciesClient :=
  { get_rule := fun _ => Option.none,
    list_rules := [mergeKeepId policyIdemRule (policyDict policyIdemParams)],
    add_timeout_rule := fun d => d, update_rule := fun d => d,
    delete_rule := fun _ => 200 }

/-- The update payload both runs send. -/
def policyIdemPayload : Dict :=
  [("policy_type", Value.str "timeout"), ("rule_id", Value.str "7"),
   ("name", Value.str "rule-A"), ("description", Value.str "new"),
   ("action", Value.str "RE_AUTH"),
   ("reauth_idle_timeout", Value.str "600"),
   ("reauth_timeout", Value.str "172800"),
   ("conditions", Value.triples [])]

/-- C4 counterexample: for the policy timeout rule, the first call updates
the remote rule, and the second call — against a remote resource that
reflects that update — still issues an update and returns `changed=true`,
not `changed=false`. -/
theorem policy_second_run_still_changed :
    policy_core policyIdemParams policyIdemClient1 =
      ⟨[RemoteCall.list, RemoteCall.update policyIdemPayload], [],
        Exit.exited true (ExitData.dict policyIdemPayload)⟩
    ∧ policy_core policyIdemParams policyIdemClient2 =
      ⟨[RemoteCall.list, RemoteCall.update policyIdemPayload], [],
        Exit.exited true (ExitData.dict policyIdemPayload)⟩ := by
  constructor
  · rfl
  · rfl

/-- The concrete second-run input for the idempotence witness. -/
def serverIdemParams : ServerParams :=
  { id := Option.none, name := some "srv-A", description := some "new",
    address := some "10.0.0.1", enabled := some true,
    app_server_group_ids := some ["g1"], state := "present" }

/-- The remote server before the first call. -/
def serverIdemExisting : Dict :=
  dictSet (dictSet (serverDict serverIdemParams) "id" (Value.str "9"))
    "description" (Value.str "old")

/-- The client for the second reconciliation: the listing holds the
resource as updated by the first call. -/
def serverIdemClient2 : ServersClient :=
  { get_server := fun _ => Option.none,
    list_servers := [mergeKeepId serverIdemExisting (serverDict serverIdemParams)],
    add_server := fun d => d, update_server := fun d => d,
    delete_server := fun _ => 200 }

/-- Witness for C4: the idempotence theorem applied at a concrete input. -/
theorem appserver_idempotence_w :
    (app_server_core serverIdemParams serverIdemClient2).exit =
      Exit.exited false
        (ExitData.dict
          (mergeKeepId (mergeKeepId serverIdemExisting (serverDict serverIdemParams))
            (serverDict serverIdemParams)))
    ∧ (app_server_core serverIdemParams serverIdemClient2).calls.all
        (fun cl => !cl.isMutating) = true :=
  appserver_idempotence serverIdemParams serverIdemClient2 [RemoteCall.list]
    serverIdemExisting (by decide) rfl

/-! ## C5 — unset-field neutrality -/

/-- Helper: a key whose every occurrence in a dict holds `None` is absent
from the dict after `deleteNone`. -/
theorem dictFind_deleteNone_none (d : Dict) (k : String)
    (h : ∀ w, (k, w) ∈ d → w = Value.none) :
    dictFind (deleteNone d) k = Option.none := by
  induction d with
  | nil => rfl
  | cons q rest ih =>
    have hrest := ih (fun w hw => h w (List.mem_cons_of_mem _ hw))
    by_cases hq : q.2 = Value.none
    · simpa [deleteNone, List.filter_cons, hq] using hrest
    · have hk : q.1 ≠ k := by
        intro he
        apply hq
        apply h
        rw [← he]
        exact List.mem_cons_self _ _
      simpa [deleteNone, List.filter_cons, hq, dictFind, hk] using hrest

/-- C5 (amended): in the PRA-approval module, a desired field the caller
leaves unset is compared as `None`, so it produces a diff entry
`(field, current, None)` whenever the current remote value is non-absent
(it is neutral only when the current value is also absent); and when the
update payload is built, the merge overwrites the current value with
`None` and `deleteNone` strips the field from the payload, so the current
value is not retained. Shown for `application_ids`. -/
theorem pra_unset_field_diffs (p : ApprovalParams) (c : PraClient)
    (cs : List RemoteCall) (E : Dict) (v : Value)
    (hres : resolvePra p c = (cs, some E))
    (hstate : p.state = "present")
    (happ : p.application_ids = Option.none)
    (hcur : dictGet E "application_ids" = v)
    (hv : v ≠ Value.none) :
    ("application_ids", v, Value.none) ∈ (pra_core p c).diffs
    ∧ (pra_core p c).calls =
        cs ++ [RemoteCall.update (praUpdatePayload (mergeKeepId E (approvalDict p)))]
    ∧ dictFind (praUpdatePayload (mergeKeepId E (approvalDict p)))
        "application_ids" = Option.none := by
  have hd : normalize_approval (approvalDict p) =
      [("email_ids", ovs p.email_ids), ("application_ids", Value.none),
       ("working_hours", ovw p.working_hours)] := by
    simp [normalize_approval, approvalDict, dictPop, happ, ovs]
  have hc : dictGet (normalize_approval E) "application_ids" = v := by
    unfold normalize_approval dictGet dictGetD
    rw [dictFind_pop_ne _ _ _ (by decide), dictFind_pop_ne _ _ _ (by decide),
      dictFind_pop_ne _ _ _ (by decide)]
    unfold dictGet dictGetD at hcur
    exact hcur
  have hmem : ("application_ids", v, Value.none) ∈
      diffEntries (normalize_approval (approvalDict p)) (normalize_approval E)
        ["id"] := by
    rw [hd]
    refine List.mem_filterMap.mpr ⟨("application_ids", Value.none), by simp, ?_⟩
    simp [hc, hv]
  have hne : diffEntries (normalize_approval (approvalDict p))
      (normalize_approval E) ["id"] ≠ [] := List.ne_nil_of_mem hmem
  have hcore : pra_core p c =
      ⟨cs ++ [RemoteCall.update (praUpdatePayload (mergeKeepId E (approvalDict p)))],
        diffEntries (normalize_approval (approvalDict p)) (normalize_approval E)
          ["id"],
        Exit.exited true
          (ExitData.dict
            (c.update_approval (praUpdatePayload (mergeKeepId E (approvalDict p)))))⟩ := by
    show pra_step p c (resolvePra p c).1 (resolvePra p c).2 = _
    rw [hres]
    simp [pra_step, hstate, hne]
  have hm : dictGet (mergeKeepId E (approvalDict p)) "application_ids"
      = Value.none := by
    unfold dictGet dictGetD mergeKeepId
    rw [dictFind_set_ne _ _ _ _ (by decide)]
    simp [dictUpdate, approvalDict, dictFind_set_ne, dictFind_set_self, happ, ovs]
  have hpay : dictFind (praUpdatePayload (mergeKeepId E (approvalDict p)))
      "application_ids" = Option.none := by
    unfold praUpdatePayload
    apply dictFind_deleteNone_none
    intro w hw
    simp at hw
    rw [hw, hm]
  refine ⟨?_, ?_, hpay⟩
  · rw [hcore]
    exact hmem
  · rw [hcore]

/-- A desired PRA approval spec leaving `application_ids` (and
`working_hours`) unset, targeting an existing approval by `email_ids`. -/
def praCxParams : ApprovalParams :=
  { id := Option.none, email_ids := some ["a@x.com"], start_time := Option.none,
    end_time := Option.none, application_ids := Option.none,
    working_hours := Option.none, state := "present" }

/-- The existing remote approval, which carries `application_ids`. -/
def praCxExisting : Dict :=
  [("id", Value.str "1"), ("email_ids", Value.strs ["a@x.com"]),
   ("application_ids", Value.strs ["app1"])]

/-- The client whose listing holds the existing approval. -/
def praCxClient : PraClient :=
  { get_approval := fun _ => Option.none, list_approval := [praCxExisting],
    add_approval := fun d => d, update_approval := fun d => d,
    delete_approval := fun _ => 200 }

/-- C5 counterexample: the caller leaves `application_ids` unset, yet the
differ produces a diff entry `("application_ids", ["app1"], None)` for it,
and the update payload — far from retaining the current value `["app1"]` —
omits the field entirely (the merge overwrote it with `None` and
`deleteNone` stripped it). -/
theorem pra_unset_field_produces_diff :
    pra_core praCxParams praCxClient =
      ⟨[RemoteCall.list,
        RemoteCall.update
          [("approval_id", Value.str "1"), ("email_ids", Value.strs ["a@x.com"])]],
       [("application_ids", Value.strs ["app1"], Value.none)],
       Exit.exited true
         (ExitData.dict
           [("approval_id", Value.str "1"),
            ("email_ids", Value.strs ["a@x.com"])])⟩ := by
  rfl

/-- Witness for C5: the amended theorem applied at a concrete input. -/
theorem pra_unset_field_diffs_w :
    ("application_ids", Value.strs ["app1"], Value.none) ∈
      (pra_core praCxParams praCxClient).diffs
    ∧ (pra_core praCxParams praCxClient).calls =
        [RemoteCall.list] ++
          [RemoteCall.update
            (praUpdatePayload (mergeKeepId praCxExisting (approvalDict praCxParams)))]
    ∧ dictFind
        (praUpdatePayload (mergeKeepId praCxExisting (approvalDict praCxParams)))
        "application_ids" = Option.none :=
  pra_unset_field_diffs praCxParams praCxClient [RemoteCall.list] praCxExisting
    (Value.strs ["app1"]) (by decide) rfl rfl (by decide) (by decide)

/-! ## C6 — natural-key resolution order -/

/-- Helper: a `break`-style scan returns the first match. -/
theorem firstMatch_append (k : String) (v : Value) (pre post : List Dict)
    (E : Dict) (hpre : ∀ D ∈ pre, dictGet D k ≠ v) (hE : dictGet E k = v) :
    firstMatch k v (pre ++ E :: post) = some E := by
  unfold firstMatch
  induction pre with
  | nil =>
    rw [List.nil_append, List.find?_cons_of_pos _ (by simpa using hE)]
  | cons D rest ih =>
    have hD : dictGet D k ≠ v := hpre D (List.mem_cons_self _ _)
    rw [List.cons_append, List.find?_cons_of_neg _ (by simpa using hD)]
    exact ih (fun D2 h2 => hpre D2 (List.mem_cons_of_mem _ h2))

/-- Helper: a scan without `break` ignores entries that match nothing. -/
theorem lastMatch_keep (k : String) (v : Value) (zs : List Dict)
    (acc : Option Dict) (h : ∀ D ∈ zs, dictGet D k ≠ v) :
    zs.foldl (fun acc d => if dictGet d k = v then some d else acc) acc = acc := by
  induction zs generalizing acc with
  | nil => rfl
  | cons D rest ih =>
    have hD : dictGet D k ≠ v := h D (List.mem_cons_self _ _)
    simp only [List.foldl_cons]
    rw [if_neg hD]
    exact ih acc (fun D2 h2 => h D2 (List.mem_cons_of_mem _ h2))

/-- Helper: a scan without `break` returns the last match. -/
theorem lastMatch_append (k : String) (v : Value) (l zs : List Dict) (B : Dict)
    (hB : dictGet B k = v) (hzs : ∀ D ∈ zs, dictGet D k ≠ v) :
    lastMatch k v (l ++ B :: zs) = some B := by
  unfold lastMatch
  rw [List.foldl_append]
  simp only [List.foldl_cons]
  rw [if_pos hB]
  exact lastMatch_keep k v zs (some B) hzs

/-- C6 (amended): when no id is supplied but a natural key is, the
application-server resolver (a scan with `break`) returns the first
listing entry whose name matches; the credential-facts module (a scan
without `break`) instead keeps the last matching entry, so on ties the
latest in listing order wins there — resolution order differs per module,
not first-match for every resource kind. -/
theorem resolver_match_order (p : ServerParams) (c : ServersClient)
    (n : String) (pre post : List Dict) (E : Dict)
    (q : FactsParams) (d : CredsClient) (n2 : String) (l zs : List Dict)
    (B : Dict)
    (hp1 : p.id = Option.none) (hp2 : p.name = some n)
    (hlist : c.list_servers = pre ++ E :: post)
    (hpre : ∀ D ∈ pre, dictGet D "name" ≠ Value.str n)
    (hE : dictGet E "name" = Value.str n)
    (hq1 : q.id = Option.none) (hq2 : q.name = some n2)
    (hlist2 : d.list_credentials = l ++ B :: zs)
    (hB : dictGet B "name" = Value.str n2)
    (hzs : ∀ D ∈ zs, dictGet D "name" ≠ Value.str n2) :
    (resolveServer p c).2 = some E
    ∧ facts_core q d =
        ⟨[RemoteCall.list], [], Exit.exited false (ExitData.dicts [B])⟩ := by
  constructor
  · have hr : resolveServer p c =
        ([RemoteCall.list], firstMatch "name" (Value.str n) c.list_servers) := by
      unfold resolveServer
      rw [hp1, hp2]
    rw [hr, hlist, firstMatch_append "name" (Value.str n) pre post E hpre hE]
  · have hf : facts_core q d =
        (match lastMatch "name" (Value.str n2) d.list_credentials with
          | Option.none =>
            ⟨[RemoteCall.list], [],
              Exit.failedMsg ("Failed to retrieve PRA Credential Name: " ++ n2)⟩
          | some cr =>
            ⟨[RemoteCall.list], [], Exit.exited false (ExitData.dicts [cr])⟩) := by
      unfold facts_core
      rw [hq1, hq2]
    rw [hf, hlist2, lastMatch_append "name" (Value.str n2) l zs B hB hzs]

/-- A credential with name `cred-A` and id `1`, first in the listing. -/
def factsCxA : Dict := [("id", Value.str "1"), ("name", Value.str "cred-A")]

/-- A credential with the same name `cred-A` but id `2`, second in the
listing. -/
def factsCxB : Dict := [("id", Value.str "2"), ("name", Value.str "cred-A")]

/-- A client whose listing holds the two like-named credentials. -/
def factsCxClient : CredsClient :=
  { get_credential := fun _ => Option.none,
    list_credentials := [factsCxA, factsCxB] }

/-- C6 counterexample: two remote credentials share the natural key
`cred-A`; the facts module returns the second one (id `2`), not the one
earliest in listing order (id `1`) — its scan has no `break`, so the last
match wins. -/
theorem facts_returns_last_match :
    facts_core { id := Option.none, name := some "cred-A" } factsCxClient =
      ⟨[RemoteCall.list], [], Exit.exited false (ExitData.dicts [factsCxB])⟩
    ∧ factsCxB ≠ factsCxA := by
  constructor
  · rfl
  · decide

/-- The concrete server params for the C6 witness. -/
def srvResParams : ServerParams :=
  { id := Option.none, name := some "srv-A", description := Option.none,
    address := Option.none, enabled := Option.none,
    app_server_group_ids := Option.none, state := "present" }

/-- The matching server record. -/
def srvResE : Dict := [("id", Value.str "5"), ("name", Value.str "srv-A")]

/-- A client whose listing holds the matching server. -/
def srvResClient : ServersClient :=
  { get_server := fun _ => Option.none, list_servers := [srvResE],
    add_server := fun d => d, update_server := fun d => d,
    delete_server := fun _ => 200 }

/-- Witness for C6: the match-order theorem applied at concrete inputs. -/
theorem resolver_match_order_w :
    (resolveServer srvResParams srvResClient).2 = some srvResE
    ∧ facts_core { id := Option.none, name := some "cred-A" } factsCxClient =
        ⟨[RemoteCall.list], [], Exit.exited false (ExitData.dicts [factsCxB])⟩ :=
  resolver_match_order srvResParams srvResClient "srv-A" [] [] srvResE
    { id := Option.none, name := some "cred-A" } factsCxClient "cred-A"
    [factsCxA] [] factsCxB rfl rfl rfl (by simp) (by decide) rfl rfl rfl
    (by decide) (by simp)

/-! ## C7 — validation order -/

/-- C7 (amended): a `present` service-edge-group reconciliation carrying a
coordinate outside its valid numeric range does fail before the resolver
runs with no remote call issued — but with a `KeyError` on `is_public`,
not with a validation fault: the coordinate domain check (which the code
places after the resolver inside the `present` branch, lines 226-232) is
never reached. -/
theorem seg_validation_unreachable (p : SegParams) (c : SegClient)
    (lat : String) (_hstate : p.state = "present")
    (_hlat : p.latitude = some lat)
    (_hbad : validate_latitude lat ≠ []) :
    seg_core p c = ⟨[], [], Exit.raised (PyErr.keyError "is_public")⟩ := rfl

/-- Service-edge-group params with latitude `100` (outside `[-90, 90]`)
and longitude `-200` (outside `[-180, 180]`). -/
def segCxParams : SegParams :=
  { id := Option.none, name := some "grp-A", description := Option.none,
    enabled := Option.none, city_country := Option.none,
    country_code := Option.none, latitude := some "100",
    longitude := some "-200", location := Option.none,
    is_public := Option.none, upgrade_day := some "SUNDAY",
    upgrade_time_in_secs := some "66600", dns_query_type := Option.none,
    override_version_profile := Option.none, version_profile_id := some "0",
    use_in_dr_mode := Option.none, trusted_networks_ids := Option.none,
    state := "present" }

/-- A client for the C7 counterexample. -/
def segCxClient : SegClient :=
  { get_service_edge_group := fun _ => Option.none,
    list_service_edge_groups := [], add_service_edge_group := fun d => d,
    update_service_edge_group := fun d => d,
    delete_service_edge_group := fun _ => 200 }

/-- C7 counterexample: with an out-of-range latitude the invocation does
not fail with a validation fault (no `fail_json` is reached); it raises
`KeyError` on `is_public` with zero remote calls. -/
theorem seg_outofrange_not_validation_fault :
    validate_latitude "100" = ["latitude must be between -90 and 90"]
    ∧ (seg_core segCxParams segCxClient).exit =
        Exit.raised (PyErr.keyError "is_public")
    ∧ (seg_core segCxParams segCxClient).exit.isFailedMsg = false
    ∧ (seg_core segCxParams segCxClient).calls = [] := by
  refine ⟨by decide, rfl, rfl, rfl⟩

/-- Witness for C7: the theorem applied at the concrete out-of-range
input. -/
theorem seg_validation_unreachable_w :
    seg_core segCxParams segCxClient =
      ⟨[], [], Exit.raised (PyErr.keyError "is_public")⟩ :=
  seg_validation_unreachable segCxParams segCxClient "100" rfl rfl (by decide)

/-! ## C8 — create conflict handling -/

/-- C8 (amended): when the create call of the connector-schedule module
reports that the resource already exists, the engine does not re-resolve
(the call trace is exactly the initial read and the create attempt), but
it does not surface the conflict as a fatal error either: it assigns a
placeholder identifier and returns without calling `exit_json` or
`fail_json`, so the invocation produces no Outcome at all. -/
theorem conflict_swallowed (p : AsstParams) (c : ConnectorsClient)
    (msg : String)
    (hget : c.get_connector_schedule = Except.ok Option.none)
    (hen : p.enabled = some true)
    (hadd : c.add_connector_schedule = Except.error msg)
    (hconf : strContains msg "resource.already.exist" = true) :
    asst_core p c =
      ⟨[RemoteCall.get (ov p.customer_id), RemoteCall.create (asstCreatePayload p)],
        [], Exit.fellThrough⟩ := by
  simp [asst_core, hget, hen, hadd, hconf]

/-- The concrete input for the C8 conflict scenario. -/
def asstCxParams : AsstParams :=
  { customer_id := some "c1", enabled := some true,
    delete_disabled := some true, frequency := some "days",
    frequency_interval := some "5", state := "present" }

/-- A client whose read finds no schedule and whose create call raises
the already-exists conflict. -/
def asstCxClient : ConnectorsClient :=
  { get_connector_schedule := Except.ok Option.none,
    add_connector_schedule :=
      Except.error "resource.already.exist: schedule present",
    update_schedule := Except.ok Option.none }

/-- C8 counterexample: on the conflict the invocation does not fail
fatally and produces zero outcomes (the terminal event is falling off the
end of `core`), while issuing no re-resolution call. -/
theorem asst_conflict_no_outcome :
    (asst_core asstCxParams asstCxClient).exit = Exit.fellThrough
    ∧ (asst_core asstCxParams asstCxClient).exit.isFailedMsg = false
    ∧ (asst_core asstCxParams asstCxClient).calls =
        [RemoteCall.get (Value.str "c1"),
         RemoteCall.create (asstCreatePayload asstCxParams)] := by
  refine ⟨rfl, rfl, rfl⟩

/-- Witness for C8: the theorem applied at the concrete conflict input. -/
theorem conflict_swallowed_w :
    asst_core asstCxParams asstCxClient =
      ⟨[RemoteCall.get (ov asstCxParams.customer_id),
        RemoteCall.create (asstCreatePayload asstCxParams)],
        [], Exit.fellThrough⟩ :=
  conflict_swallowed asstCxParams asstCxClient
    "resource.already.exist: schedule present" rfl rfl rfl (by decide)

/-! ## C9 — soft delete failure -/

/-- C9: in both the application-server and the PRA-approval modules, a
delete call whose status classification is non-success (status code above
299) does not fail fatally: the invocation exits with `changed=false` and
empty data; a successful delete exits with `changed=true`. -/
theorem delete_soft_failure (p : ServerParams) (c : ServersClient)
    (cs : List RemoteCall) (E : Dict)
    (q : ApprovalParams) (d : PraClient) (ds : List RemoteCall) (F : Dict)
    (hres : resolveServer p c = (cs, some E)) (hst : p.state = "absent")
    (hid : dictGet E "id" ≠ Value.none)
    (hres2 : resolvePra q d = (ds, some F)) (hst2 : q.state = "absent")
    (hid2 : dictGet F "id" ≠ Value.none) :
    ((app_server_core p c).exit =
      (if c.delete_server (dictGet E "id") > 299 then
        Exit.exited false ExitData.none
       else Exit.exited true (ExitData.dict (mergeKeepId E (serverDict p)))))
    ∧ ((pra_core q d).exit =
      (if d.delete_approval (dictGet F "id") > 299 then
        Exit.exited false ExitData.none
       else Exit.exited true (ExitData.dict (mergeKeepId F (approvalDict q))))) := by
  constructor
  · show (app_server_step p c (resolveServer p c).1 (resolveServer p c).2).exit = _
    rw [hres]
    simp only [app_server_step]
    rw [if_neg (by simp [hst]),
      if_pos ⟨hst, by rw [dictGet_merge_id]; exact hid⟩, dictGet_merge_id]
    split <;> rfl
  · show (pra_step q d (resolvePra q d).1 (resolvePra q d).2).exit = _
    rw [hres2]
    simp only [pra_step]
    rw [if_neg (by simp [hst2]),
      if_pos ⟨hst2, by rw [dictGet_merge_id]; exact hid2⟩, dictGet_merge_id]
    split <;> rfl

/-- The concrete delete input for the application server. -/
def delCxParams : ServerParams :=
  { id := Option.none, name := some "srv-A", description := Option.none,
    address := Option.none, enabled := Option.none,
    app_server_group_ids := Option.none, state := "absent" }

/-- The resolved remote server to delete. -/
def delCxE : Dict := [("id", Value.str "9"), ("name", Value.str "srv-A")]

/-- A client whose delete call reports status 404 (non-success). -/
def delCxClient : ServersClient :=
  { get_server := fun _ => Option.none, list_servers := [delCxE],
    add_server := fun d => d, update_server := fun d => d,
    delete_server := fun _ => 404 }

/-- The concrete delete input for the PRA approval. -/
def delCxPraParams : ApprovalParams :=
  { id := Option.none, email_ids := some ["a@x.com"],
    start_time := Option.none, end_time := Option.none,
    application_ids := Option.none, working_hours := Option.none,
    state := "absent" }

/-- The resolved remote approval to delete. -/
def delCxF : Dict :=
  [("id", Value.str "3"), ("email_ids", Value.strs ["a@x.com"])]

/-- A client whose delete call reports status 404 (non-success). -/
def delCxPraClient : PraClient :=
  { get_approval := fun _ => Option.none, list_approval := [delCxF],
    add_approval := fun d => d, update_approval := fun d => d,
    delete_approval := fun _ => 404 }

/-- Witness for C9: both modules, at a concrete failing delete, exit with
`changed=false` and empty data. -/
theorem delete_soft_failure_w :
    (app_server_core delCxParams delCxClient).exit =
      Exit.exited false ExitData.none
    ∧ (pra_core delCxPraParams delCxPraClient).exit =
      Exit.exited false ExitData.none := by
  have h := delete_soft_failure delCxParams delCxClient [RemoteCall.list] delCxE
    delCxPraParams delCxPraClient [RemoteCall.list] delCxF
    (by decide) rfl (by decide) (by decide) rfl (by decide)
  exact ⟨by simpa using h.1, by simpa using h.2⟩
